import Mathlib

/-!
Verification of the two calculators in `src/app.py` of the
`analise-overbooking-roi` repository: the overbooking risk model
(`OverbookingAnalyzer`) and the ROI model (`ROIAnalyzer`).

Real numbers of the Python program are modelled as rationals (`ℚ`); the
scipy binomial PMF/CDF are modelled by their exact mathematical
definitions; Python division (which raises `ZeroDivisionError` on a zero
denominator) is modelled by fallible results (`Option`/`Except`) at the
call sites where the denominator can be zero.  The numpy global random
generator is modelled by an explicit state (`RNGState`) holding the last
seed set and an offset, together with an abstract family
`gauss : ℕ → ℕ → ℚ` giving the i-th standard-normal draw of the
generator after seeding with a given seed (numpy's
`normal(loc, scale, n)` returns `loc + scale * z_i` for standard draws
`z_i`).
-/

/-- Exact binomial probability mass function, modelling
`scipy.stats.binom.pmf(k, n, p)`: `C(n, k) * p^k * (1-p)^(n-k)`. -/
def binom_pmf (k n : ℕ) (p : ℚ) : ℚ :=
  (n.choose k : ℚ) * p ^ k * (1 - p) ^ (n - k)

/-- Exact binomial cumulative distribution function, modelling
`scipy.stats.binom.cdf(c, n, p)`: the sum of the PMF over `0 ≤ k ≤ c`. -/
def binom_cdf (c n : ℕ) (p : ℚ) : ℚ :=
  ∑ k ∈ Finset.range (c + 1), binom_pmf k n p

/-- Data of `OverbookingAnalyzer` (src/app.py lines 16-20): the fields
stored by `__init__`.  `prob_comparecimento` is derived below. -/
structure OverbookingAnalyzer where
  capacidade : ℕ
  taxa_no_show : ℚ

/-- Derived field `prob_comparecimento = 1 - taxa_no_show`
(src/app.py line 20). -/
def OverbookingAnalyzer.prob_comparecimento (a : OverbookingAnalyzer) : ℚ :=
  1 - a.taxa_no_show

/-- Model of `OverbookingAnalyzer.__init__` (src/app.py lines 17-20).
The result type admits failure (`Except`) so that a validation error
could be expressed, but the source constructor performs no validation
whatsoever: it stores its arguments and always succeeds. -/
def overbooking_init (capacidade : ℕ) (taxa_no_show : ℚ) :
    Except Unit OverbookingAnalyzer :=
  Except.ok ⟨capacidade, taxa_no_show⟩

/-- Model of `OverbookingAnalyzer.calcular_prob_overbooking`
(src/app.py lines 22-23):
`1 - binom.cdf(capacidade, passagens_vendidas, prob_comparecimento)`. -/
def calcular_prob_overbooking (a : OverbookingAnalyzer)
    (passagens_vendidas : ℕ) : ℚ :=
  1 - binom_cdf a.capacidade passagens_vendidas a.prob_comparecimento

/-- Fuel-indexed loop of `encontrar_max_passagens` (src/app.py lines
26-30): starting at ticket count `n` with `fuel` iterations left, return
`n - 1` at the first `n` whose overbooking probability exceeds
`limite_risco`, else `capacidade` when the loop ends. -/
def encontrar_aux (a : OverbookingAnalyzer) (limite_risco : ℚ) :
    ℕ → ℕ → ℕ
  | 0, _ => a.capacidade
  | fuel + 1, n =>
    if limite_risco < calcular_prob_overbooking a n then n - 1
    else encontrar_aux a limite_risco fuel (n + 1)

/-- Model of `OverbookingAnalyzer.encontrar_max_passagens`
(src/app.py lines 25-30): `for n in range(capacidade, capacidade + 50)`,
return `n - 1` at the first exceedance of `limite_risco`, else
`capacidade`. -/
def encontrar_max_passagens (a : OverbookingAnalyzer)
    (limite_risco : ℚ) : ℕ :=
  encontrar_aux a limite_risco 50 a.capacidade

/-- Record returned by `analise_financeira` (src/app.py lines 46-51). -/
structure AnaliseFinanceira where
  receita_adicional : ℚ
  custo_esperado : ℚ
  lucro_esperado : ℚ
  prob_overbooking : ℚ

/-- Model of `OverbookingAnalyzer.analise_financeira`
(src/app.py lines 32-51).  The Python `for k in
range(capacidade + 1, passagens_total + 1)` accumulation of
`pmf(k) * (k - capacidade)` is the finite sum over
`Finset.Icc (capacidade + 1) passagens_total`. -/
def analise_financeira (a : OverbookingAnalyzer) (passagens_extra : ℕ)
    (preco_passagem custo_indenizacao : ℚ) : AnaliseFinanceira :=
  let passagens_total := a.capacidade + passagens_extra
  let prob_overbooking := calcular_prob_overbooking a passagens_total
  let valor_esperado_excesso : ℚ :=
    ∑ k ∈ Finset.Icc (a.capacidade + 1) passagens_total,
      binom_pmf k passagens_total a.prob_comparecimento *
        ((k : ℚ) - (a.capacidade : ℚ))
  let receita_adicional := (passagens_extra : ℚ) * preco_passagem
  let custo_esperado := valor_esperado_excesso * custo_indenizacao
  let lucro_esperado := receita_adicional - custo_esperado
  ⟨receita_adicional, custo_esperado, lucro_esperado, prob_overbooking⟩

/-- Data of `ROIAnalyzer` (src/app.py lines 53-57). -/
structure ROIAnalyzer where
  investimento : ℚ
  receita_esperada : ℚ
  custo_operacional : ℚ

/-- Model of `ROIAnalyzer.calcular_roi` (src/app.py lines 59-62).
The Python default `receita_real=None` is `none`; the Python truthiness
test `receita_real if receita_real else receita_esperada` treats both
`None` and `0` as absent; the division `lucro / investimento` raises
`ZeroDivisionError` when `investimento == 0`, modelled as `none`. -/
def calcular_roi (a : ROIAnalyzer) (receita_real : Option ℚ) : Option ℚ :=
  let receita : ℚ :=
    match receita_real with
    | some r => if r = 0 then a.receita_esperada else r
    | none => a.receita_esperada
  let lucro := receita - a.custo_operacional
  if a.investimento = 0 then none
  else some (lucro / a.investimento * 100)

/-- Output record of `simulacao_monte_carlo` (src/app.py line 70), with
the three parallel sequences in the order of the returned dict. -/
structure SimulationResult where
  receitas : List ℚ
  rois : List ℚ
  performances : List ℚ

/-- State of numpy's global random generator, abstracted as the seed
last set together with how many draws have been consumed since. -/
structure RNGState where
  seed : ℕ
  offset : ℕ

/-- Model of `np.random.seed(s)`: reset the global state. -/
def np_random_seed (s : ℕ) : RNGState := ⟨s, 0⟩

/-- Model of `np.clip(x, lo, hi)`: values below `lo` become `lo`, above
`hi` become `hi`. -/
def np_clip (x lo hi : ℚ) : ℚ := min (max x lo) hi

/-- Model of `np.random.normal(loc, scale, size)` on the global
generator state `s`, parametric in the abstract standard-normal draw
family `gauss` (draw `i` after seeding with `sd` is `gauss sd i`): the
sample list and the advanced state. -/
def np_random_normal (gauss : ℕ → ℕ → ℚ) (loc scale : ℚ) (size : ℕ)
    (s : RNGState) : List ℚ × RNGState :=
  ((List.range size).map fun i => loc + scale * gauss s.seed (s.offset + i),
    ⟨s.seed, s.offset + size⟩)

/-- Model of `ROIAnalyzer.simulacao_monte_carlo` (src/app.py lines
64-70), called with the global generator in state `s`.  The body first
executes `np.random.seed(42)`, discarding `s`, then draws, clips to
`[0, 1]`, and builds the parallel revenue and ROI lists.  The ROI list
comprehension divides by `investimento`, which in Python raises
`ZeroDivisionError` when `investimento == 0` and at least one sample
exists; that failure is modelled as `none`. -/
def simulacao_monte_carlo (gauss : ℕ → ℕ → ℚ) (a : ROIAnalyzer)
    (n_simulacoes : ℕ) (media_performance std_performance : ℚ)
    (s : RNGState) : Option SimulationResult × RNGState :=
  let s1 := np_random_seed 42
  let drawn := np_random_normal gauss media_performance std_performance
    n_simulacoes s1
  let performances := drawn.1.map fun x => np_clip x 0 1
  let receitas := performances.map fun x => x * a.receita_esperada
  if a.investimento = 0 ∧ n_simulacoes ≠ 0 then (none, drawn.2)
  else
    (some ⟨receitas,
      receitas.map fun receita =>
        (receita - a.custo_operacional) / a.investimento * 100,
      performances⟩, drawn.2)

/-- Binomial mass over the whole support sums to `1`: for `n ≤ c` the
CDF at `c` of a binomial with `n` trials is `1` (terms with `k > n`
vanish because `C(n, k) = 0`, and the rest sum to `(p + (1-p))^n`). -/
lemma binom_cdf_eq_one {c n : ℕ} (h : n ≤ c) (p : ℚ) :
    binom_cdf c n p = 1 := by
  have hfull : ∑ k ∈ Finset.range (n + 1), binom_pmf k n p = 1 := by
    have hpow := add_pow p (1 - p) n
    have hone : p + (1 - p) = 1 := by ring
    rw [hone, one_pow] at hpow
    rw [show (1 : ℚ) = (p + (1 - p)) ^ n from by rw [hone, one_pow]] at hpow
    calc ∑ k ∈ Finset.range (n + 1), binom_pmf k n p
        = ∑ k ∈ Finset.range (n + 1), p ^ k * (1 - p) ^ (n - k) * (n.choose k : ℚ) := by
          refine Finset.sum_congr rfl fun k _ => ?_
          unfold binom_pmf
          ring
      _ = (p + (1 - p)) ^ n := (add_pow p (1 - p) n).symm
      _ = 1 := by rw [hone, one_pow]
  have hsub : Finset.range (n + 1) ⊆ Finset.range (c + 1) :=
    Finset.range_subset.mpr (by omega)
  have hzero : ∀ k ∈ Finset.range (c + 1), k ∉ Finset.range (n + 1) →
      binom_pmf k n p = 0 := by
    intro k _ hk
    have hnk : n < k := by
      simp only [Finset.mem_range] at hk
      omega
    unfold binom_pmf
    rw [Nat.choose_eq_zero_of_lt hnk]
    simp
  unfold binom_cdf
  rw [← Finset.sum_subset hsub hzero]
  exact hfull

/-- The binomial PMF is nonnegative for `p ∈ [0, 1]`. -/
lemma binom_pmf_nonneg {k n : ℕ} {p : ℚ} (h0 : 0 ≤ p) (h1 : p ≤ 1) :
    0 ≤ binom_pmf k n p := by
  have hq : (0 : ℚ) ≤ 1 - p := by linarith
  unfold binom_pmf
  exact mul_nonneg (mul_nonneg (Nat.cast_nonneg _) (pow_nonneg h0 _))
    (pow_nonneg hq _)

/-- Peeling the top term of the CDF sum. -/
lemma binom_cdf_succ_c (c n : ℕ) (p : ℚ) :
    binom_cdf (c + 1) n p = binom_cdf c n p + binom_pmf (c + 1) n p := by
  unfold binom_cdf
  rw [Finset.sum_range_succ]

/-- Pascal step for the PMF: for `c + 1 ≤ n`,
`pmf (c+1) (n+1) = (1-p) * pmf (c+1) n + p * pmf c n`. -/
lemma binom_pmf_succ {c n : ℕ} (h : c + 1 ≤ n) (p : ℚ) :
    binom_pmf (c + 1) (n + 1) p =
      (1 - p) * binom_pmf (c + 1) n p + p * binom_pmf c n p := by
  unfold binom_pmf
  rw [Nat.choose_succ_succ]
  have e1 : n + 1 - (c + 1) = n - c := by omega
  have e2 : n - c = (n - (c + 1)) + 1 := by omega
  rw [e1, e2]
  push_cast
  rw [pow_succ, pow_succ]
  ring

/-- Recurrence in the number of trials: for `c ≤ n`,
`cdf c (n+1) = cdf c n - p * pmf c n`. -/
lemma binom_cdf_succ_n {c n : ℕ} (h : c ≤ n) (p : ℚ) :
    binom_cdf c (n + 1) p = binom_cdf c n p - p * binom_pmf c n p := by
  induction c with
  | zero =>
    unfold binom_cdf
    rw [Finset.sum_range_one, Finset.sum_range_one]
    unfold binom_pmf
    simp only [Nat.choose_zero_right, Nat.cast_one, pow_zero, Nat.sub_zero]
    rw [pow_succ]
    ring
  | succ c ih =>
    have hc : c ≤ n := by omega
    rw [binom_cdf_succ_c, binom_cdf_succ_c, ih hc, binom_pmf_succ h]
    ring

/-- One trial more can only lower the CDF (for `p ∈ [0, 1]`). -/
lemma binom_cdf_anti_step (c n : ℕ) {p : ℚ} (h0 : 0 ≤ p) (h1 : p ≤ 1) :
    binom_cdf c (n + 1) p ≤ binom_cdf c n p := by
  rcases le_or_lt c n with h | h
  · rw [binom_cdf_succ_n h]
    have hpmf := @binom_pmf_nonneg c n p h0 h1
    nlinarith
  · have hn : n ≤ c := by omega
    have hn1 : n + 1 ≤ c := h
    rw [binom_cdf_eq_one hn1, binom_cdf_eq_one hn]

/-- The overbooking probability is monotone in the number of tickets
sold, for any analyzer whose no-show rate lies in `[0, 1]`. -/
lemma calcular_prob_overbooking_mono (a : OverbookingAnalyzer)
    (h0 : 0 ≤ a.taxa_no_show) (h1 : a.taxa_no_show ≤ 1) :
    Monotone (calcular_prob_overbooking a) := by
  have hp0 : 0 ≤ a.prob_comparecimento := by
    unfold OverbookingAnalyzer.prob_comparecimento
    linarith
  have hp1 : a.prob_comparecimento ≤ 1 := by
    unfold OverbookingAnalyzer.prob_comparecimento
    linarith
  apply monotone_nat_of_le_succ
  intro n
  unfold calcular_prob_overbooking
  have hstep := binom_cdf_anti_step a.capacidade n hp0 hp1
  linarith

/-- Selling exactly `capacidade` tickets gives overbooking probability
exactly `0` (the binomial CDF at its own trial count is `1`). -/
lemma prob_overbooking_at_capacity (a : OverbookingAnalyzer) :
    calcular_prob_overbooking a a.capacidade = 0 := by
  unfold calcular_prob_overbooking
  rw [binom_cdf_eq_one (le_refl a.capacidade)]
  ring

/-- If no ticket count in the scanned window exceeds the risk limit, the
loop runs out of fuel and returns `capacidade`. -/
lemma encontrar_aux_of_none (a : OverbookingAnalyzer) (limite : ℚ)
    (fuel : ℕ) :
    ∀ n, (∀ i, n ≤ i → i < n + fuel →
      ¬ limite < calcular_prob_overbooking a i) →
    encontrar_aux a limite fuel n = a.capacidade := by
  induction fuel with
  | zero => intro n _; rfl
  | succ fuel ih =>
    intro n h
    rw [encontrar_aux, if_neg (h n le_rfl (by omega))]
    exact ih (n + 1) fun i hi1 hi2 => h i (by omega) (by omega)

/-- If `n0` is the first ticket count at or after the loop start whose
probability exceeds the limit, and it lies within the fuel window, the
loop returns `n0 - 1`. -/
lemma encontrar_aux_of_first (a : OverbookingAnalyzer) (limite : ℚ)
    (fuel : ℕ) :
    ∀ n n0, n ≤ n0 → n0 < n + fuel →
    limite < calcular_prob_overbooking a n0 →
    (∀ i, n ≤ i → i < n0 → ¬ limite < calcular_prob_overbooking a i) →
    encontrar_aux a limite fuel n = n0 - 1 := by
  induction fuel with
  | zero => intro n n0 _ _ _ _; omega
  | succ fuel ih =>
    intro n n0 hlow hhigh hexc hmin
    rw [encontrar_aux]
    by_cases hn : limite < calcular_prob_overbooking a n
    · have hEq : n = n0 := by
        by_contra hne
        exact hmin n le_rfl (by omega) hn
      rw [if_pos hn, hEq]
    · rw [if_neg hn]
      have hne : n ≠ n0 := fun e => hn (e ▸ hexc)
      exact ih (n + 1) n0 (by omega) (by omega) hexc
        fun i h1 h2 => hmin i (by omega) h2

/-- The first component of a Monte Carlo run depends only on the three
analyzer fields, the sample count, the mean and the standard deviation:
the incoming generator state is discarded by the `np.random.seed(42)`
call at the top of the body. -/
lemma simulacao_monte_carlo_fst_congr (gauss : ℕ → ℕ → ℚ)
    (a1 a2 : ROIAnalyzer) (n : ℕ) (media std : ℚ) (s1 s2 : RNGState)
    (hinv : a1.investimento = a2.investimento)
    (hrev : a1.receita_esperada = a2.receita_esperada)
    (hcost : a1.custo_operacional = a2.custo_operacional) :
    (simulacao_monte_carlo gauss a1 n media std s1).1 =
      (simulacao_monte_carlo gauss a2 n media std s2).1 := by
  obtain ⟨i1, r1, c1⟩ := a1
  obtain ⟨i2, r2, c2⟩ := a2
  simp only at hinv hrev hcost
  subst hinv
  subst hrev
  subst hcost
  rfl

/-- Closed form of `simulacao_monte_carlo` (zeta/delta reduction of the
body). -/
lemma simulacao_monte_carlo_eq (gauss : ℕ → ℕ → ℚ) (a : ROIAnalyzer)
    (n : ℕ) (media std : ℚ) (s : RNGState) :
    simulacao_monte_carlo gauss a n media std s =
      if a.investimento = 0 ∧ n ≠ 0 then (none, ⟨42, 0 + n⟩)
      else
        (some
          ⟨(((List.range n).map fun i =>
                media + std * gauss 42 (0 + i)).map fun x =>
              np_clip x 0 1).map fun x => x * a.receita_esperada,
            ((((List.range n).map fun i =>
                  media + std * gauss 42 (0 + i)).map fun x =>
                np_clip x 0 1).map fun x =>
              x * a.receita_esperada).map fun receita =>
                (receita - a.custo_operacional) / a.investimento * 100,
            ((List.range n).map fun i =>
                media + std * gauss 42 (0 + i)).map fun x =>
              np_clip x 0 1⟩,
        ⟨42, 0 + n⟩) :=
  rfl

/-- Clipping to `[0, 1]` really lands in `[0, 1]`. -/
lemma np_clip_unit_bounds (x : ℚ) :
    0 ≤ np_clip x 0 1 ∧ np_clip x 0 1 ≤ 1 := by
  unfold np_clip
  exact ⟨le_min (le_max_right x 0) (by norm_num), min_le_right _ _⟩

/-- C7: for every capacity > 0 and noShowRate in [0,1], the overbooking
probability with exactly `capacidade` tickets sold is exactly `0`: a
binomial with `capacidade` trials has no mass above `capacidade`. -/
theorem spec_c7_prob_overbooking_at_capacity_eq_zero
    (a : OverbookingAnalyzer) (hcap : 0 < a.capacidade)
    (h0 : 0 ≤ a.taxa_no_show) (h1 : a.taxa_no_show ≤ 1) :
    calcular_prob_overbooking a a.capacidade = 0 :=
  prob_overbooking_at_capacity a

/-- Witness for C7 at `capacidade = 120`, `taxa_no_show = 0.12`. -/
theorem spec_c7_witness :
    0 < (⟨120, 12/100⟩ : OverbookingAnalyzer).capacidade ∧
    0 ≤ (⟨120, 12/100⟩ : OverbookingAnalyzer).taxa_no_show ∧
    (⟨120, 12/100⟩ : OverbookingAnalyzer).taxa_no_show ≤ 1 ∧
    calcular_prob_overbooking ⟨120, 12/100⟩ 120 = 0 :=
  ⟨by norm_num, by norm_num, by norm_num,
    spec_c7_prob_overbooking_at_capacity_eq_zero ⟨120, 12/100⟩
      (by norm_num) (by norm_num) (by norm_num)⟩

/-- C8: for fixed capacity > 0 and noShowRate in [0,1], the overbooking
probability is monotonically non-decreasing in the number of tickets
sold. -/
theorem spec_c8_prob_overbooking_monotone (a : OverbookingAnalyzer)
    (hcap : 0 < a.capacidade) (h0 : 0 ≤ a.taxa_no_show)
    (h1 : a.taxa_no_show ≤ 1) (m n : ℕ) (hmn : m ≤ n) :
    calcular_prob_overbooking a m ≤ calcular_prob_overbooking a n :=
  calcular_prob_overbooking_mono a h0 h1 hmn

/-- Witness for C8 at `capacidade = 2`, `taxa_no_show = 1/2`,
`m = 0`, `n = 3`. -/
theorem spec_c8_witness :
    0 < (⟨2, 1/2⟩ : OverbookingAnalyzer).capacidade ∧
    0 ≤ (⟨2, 1/2⟩ : OverbookingAnalyzer).taxa_no_show ∧
    (⟨2, 1/2⟩ : OverbookingAnalyzer).taxa_no_show ≤ 1 ∧
    (0 : ℕ) ≤ 3 ∧
    calcular_prob_overbooking ⟨2, 1/2⟩ 0 ≤ calcular_prob_overbooking ⟨2, 1/2⟩ 3 :=
  ⟨by norm_num, by norm_num, by norm_num, by norm_num,
    spec_c8_prob_overbooking_monotone ⟨2, 1/2⟩ (by norm_num) (by norm_num)
      (by norm_num) 0 3 (by norm_num)⟩

/-- C4: with nonzero investment, `calcular_roi` returns
`(revenue - operatingCost) / investment * 100`, where the revenue falls
back to `receita_esperada` both when no actual revenue is passed and
when the actual revenue is exactly `0` (Python truthiness), and an
actual revenue `r ≠ 0` is used as passed. -/
theorem spec_c4_calcular_roi (a : ROIAnalyzer)
    (h : a.investimento ≠ 0) :
    calcular_roi a none =
      some ((a.receita_esperada - a.custo_operacional) / a.investimento * 100) ∧
    calcular_roi a (some 0) =
      some ((a.receita_esperada - a.custo_operacional) / a.investimento * 100) ∧
    ∀ r : ℚ, r ≠ 0 → calcular_roi a (some r) =
      some ((r - a.custo_operacional) / a.investimento * 100) := by
  refine ⟨?_, ?_, ?_⟩
  · simp [calcular_roi, h]
  · simp [calcular_roi, h]
  · intro r hr
    simp [calcular_roi, h, hr]

/-- Witness for C4: investment 50000, expected revenue 80000, operating
cost 10000 gives ROI exactly 140. -/
theorem spec_c4_witness :
    (⟨50000, 80000, 10000⟩ : ROIAnalyzer).investimento ≠ 0 ∧
    calcular_roi ⟨50000, 80000, 10000⟩ none = some 140 := by
  have h : (⟨50000, 80000, 10000⟩ : ROIAnalyzer).investimento ≠ 0 := by
    norm_num
  refine ⟨h, ?_⟩
  rw [(spec_c4_calcular_roi ⟨50000, 80000, 10000⟩ h).1]
  norm_num

/-- C6: with investment exactly `0`, `calcular_roi` signals the
division-by-zero failure (modelled `none`) instead of returning any
numeric value, whatever revenue argument is passed. -/
theorem spec_c6_calcular_roi_zero_investment (a : ROIAnalyzer)
    (h : a.investimento = 0) (receita_real : Option ℚ) :
    calcular_roi a receita_real = none := by
  simp [calcular_roi, h]

/-- Witness for C6 at investment 0. -/
theorem spec_c6_witness :
    (⟨0, 80000, 10000⟩ : ROIAnalyzer).investimento = 0 ∧
    calcular_roi ⟨0, 80000, 10000⟩ none = none :=
  ⟨rfl, spec_c6_calcular_roi_zero_investment ⟨0, 80000, 10000⟩ rfl none⟩

/-- C5 counterexample: constructing with `taxa_no_show = 2 > 1`
succeeds and stores the out-of-range value, so construction does not
reject out-of-range no-show rates. -/
theorem spec_c5_counterexample :
    (1 : ℚ) < 2 ∧ overbooking_init 120 2 = Except.ok ⟨120, 2⟩ :=
  ⟨by norm_num, rfl⟩

/-- C5 amended: the constructor performs no validation at all: for every
`capacidade` and every `taxa_no_show` (also outside `[0, 1]`),
construction succeeds and stores the value unchanged, never clamped;
range enforcement exists only at the UI slider boundary. -/
theorem spec_c5_amended_init_never_rejects (capacidade : ℕ)
    (taxa_no_show : ℚ) :
    overbooking_init capacidade taxa_no_show =
      Except.ok ⟨capacidade, taxa_no_show⟩ :=
  rfl

/-- C9: `analise_financeira` returns additional revenue
`extra * price`, expected cost `expectedExcess * compensation` with
`expectedExcess` the exact finite sum of `pmf(k) * (k - capacity)` for
`k` from `capacity + 1` to `capacity + extra`, expected profit their
difference, and the overbooking probability at the total ticket count;
with `extra = 0` the sum is empty, so the expected cost is `0` and the
profit equals the additional revenue. -/
theorem spec_c9_analise_financeira (a : OverbookingAnalyzer)
    (passagens_extra : ℕ) (preco_passagem custo_indenizacao : ℚ) :
    (analise_financeira a passagens_extra preco_passagem
        custo_indenizacao).receita_adicional =
      (passagens_extra : ℚ) * preco_passagem ∧
    (analise_financeira a passagens_extra preco_passagem
        custo_indenizacao).custo_esperado =
      (∑ k ∈ Finset.Icc (a.capacidade + 1) (a.capacidade + passagens_extra),
        binom_pmf k (a.capacidade + passagens_extra) a.prob_comparecimento *
          ((k : ℚ) - (a.capacidade : ℚ))) * custo_indenizacao ∧
    (analise_financeira a passagens_extra preco_passagem
        custo_indenizacao).lucro_esperado =
      (analise_financeira a passagens_extra preco_passagem
        custo_indenizacao).receita_adicional -
      (analise_financeira a passagens_extra preco_passagem
        custo_indenizacao).custo_esperado ∧
    (analise_financeira a passagens_extra preco_passagem
        custo_indenizacao).prob_overbooking =
      calcular_prob_overbooking a (a.capacidade + passagens_extra) ∧
    (passagens_extra = 0 →
      (analise_financeira a passagens_extra preco_passagem
        custo_indenizacao).custo_esperado = 0 ∧
      (analise_financeira a passagens_extra preco_passagem
        custo_indenizacao).lucro_esperado =
        (analise_financeira a passagens_extra preco_passagem
          custo_indenizacao).receita_adicional) := by
  refine ⟨rfl, rfl, rfl, rfl, ?_⟩
  intro h
  subst h
  have hempty : Finset.Icc (a.capacidade + 1) (a.capacidade + 0) = ∅ :=
    Finset.Icc_eq_empty (by omega)
  constructor
  · show (∑ k ∈ Finset.Icc (a.capacidade + 1) (a.capacidade + 0),
        binom_pmf k (a.capacidade + 0) a.prob_comparecimento *
          ((k : ℚ) - (a.capacidade : ℚ))) * custo_indenizacao = 0
    rw [hempty, Finset.sum_empty, zero_mul]
  · show ((0 : ℕ) : ℚ) * preco_passagem -
        (∑ k ∈ Finset.Icc (a.capacidade + 1) (a.capacidade + 0),
          binom_pmf k (a.capacidade + 0) a.prob_comparecimento *
            ((k : ℚ) - (a.capacidade : ℚ))) * custo_indenizacao =
        ((0 : ℕ) : ℚ) * preco_passagem
    rw [hempty, Finset.sum_empty, zero_mul, sub_zero]

/-- C2: the simulation output is independent of whatever seed the
caller set on the global generator before the call (such as the UI seed
input at src/app.py line 282): the body reseeds with the constant 42,
so equal model fields and equal (sampleCount, mean, std) give equal
outputs for any two incoming generator states. -/
theorem spec_c2_caller_seed_irrelevant (gauss : ℕ → ℕ → ℚ)
    (a1 a2 : ROIAnalyzer) (n : ℕ) (media std : ℚ) (s1 s2 : RNGState)
    (hinv : a1.investimento = a2.investimento)
    (hrev : a1.receita_esperada = a2.receita_esperada)
    (hcost : a1.custo_operacional = a2.custo_operacional) :
    (simulacao_monte_carlo gauss a1 n media std s1).1 =
      (simulacao_monte_carlo gauss a2 n media std s2).1 :=
  simulacao_monte_carlo_fst_congr gauss a1 a2 n media std s1 s2
    hinv hrev hcost

/-- Witness for C2: two different incoming generator states. -/
theorem spec_c2_witness :
    (⟨1, 2, 3⟩ : ROIAnalyzer).investimento =
      (⟨1, 2, 3⟩ : ROIAnalyzer).investimento ∧
    (⟨1, 2, 3⟩ : ROIAnalyzer).receita_esperada =
      (⟨1, 2, 3⟩ : ROIAnalyzer).receita_esperada ∧
    (⟨1, 2, 3⟩ : ROIAnalyzer).custo_operacional =
      (⟨1, 2, 3⟩ : ROIAnalyzer).custo_operacional ∧
    (simulacao_monte_carlo (fun _ _ => 0) ⟨1, 2, 3⟩ 2 (3/4) (3/20)
        ⟨7, 0⟩).1 =
      (simulacao_monte_carlo (fun _ _ => 0) ⟨1, 2, 3⟩ 2 (3/4) (3/20)
        ⟨9, 5⟩).1 :=
  ⟨rfl, rfl, rfl,
    spec_c2_caller_seed_irrelevant (fun _ _ => 0) ⟨1, 2, 3⟩ ⟨1, 2, 3⟩ 2
      (3/4) (3/20) ⟨7, 0⟩ ⟨9, 5⟩ rfl rfl rfl⟩

/-- C3: the simulation is deterministic in the seed: two runs after
seeding the global generator with the same seed, with equal model
fields and equal (sampleCount, mean, std), produce identical output
sequences. -/
theorem spec_c3_deterministic_in_seed (gauss : ℕ → ℕ → ℚ)
    (a1 a2 : ROIAnalyzer) (n : ℕ) (media std : ℚ) (seed : ℕ)
    (hinv : a1.investimento = a2.investimento)
    (hrev : a1.receita_esperada = a2.receita_esperada)
    (hcost : a1.custo_operacional = a2.custo_operacional) :
    (simulacao_monte_carlo gauss a1 n media std
        (np_random_seed seed)).1 =
      (simulacao_monte_carlo gauss a2 n media std
        (np_random_seed seed)).1 :=
  simulacao_monte_carlo_fst_congr gauss a1 a2 n media std
    (np_random_seed seed) (np_random_seed seed) hinv hrev hcost

/-- Witness for C3 at seed 7. -/
theorem spec_c3_witness :
    (⟨5, 6, 7⟩ : ROIAnalyzer).investimento =
      (⟨5, 6, 7⟩ : ROIAnalyzer).investimento ∧
    (⟨5, 6, 7⟩ : ROIAnalyzer).receita_esperada =
      (⟨5, 6, 7⟩ : ROIAnalyzer).receita_esperada ∧
    (⟨5, 6, 7⟩ : ROIAnalyzer).custo_operacional =
      (⟨5, 6, 7⟩ : ROIAnalyzer).custo_operacional ∧
    (simulacao_monte_carlo (fun _ _ => 1) ⟨5, 6, 7⟩ 3 (1/2) (1/10)
        (np_random_seed 7)).1 =
      (simulacao_monte_carlo (fun _ _ => 1) ⟨5, 6, 7⟩ 3 (1/2) (1/10)
        (np_random_seed 7)).1 :=
  ⟨rfl, rfl, rfl,
    spec_c3_deterministic_in_seed (fun _ _ => 1) ⟨5, 6, 7⟩ ⟨5, 6, 7⟩ 3
      (1/2) (1/10) 7 rfl rfl rfl⟩

/-- C1 counterexample: at `capacidade = 1`, `taxa_no_show = 0` (both in
the claimed ranges) and `riskLimit = -1`, the loop returns
`capacidade - 1 = 0`, which lies outside `[capacidade, capacidade+49]`,
even though some `n` in that range has probability above the limit; so
the claimed declarative characterisation fails for a negative risk
limit. -/
theorem spec_c1_counterexample :
    encontrar_max_passagens ⟨1, 0⟩ (-1) = 0 ∧
    ¬ (((∃ n ∈ Finset.Icc (1 : ℕ) (1 + 49),
            (-1 : ℚ) < calcular_prob_overbooking ⟨1, 0⟩ n) →
          encontrar_max_passagens ⟨1, 0⟩ (-1) ∈
              Finset.Icc (1 : ℕ) (1 + 49) ∧
            calcular_prob_overbooking ⟨1, 0⟩
                (encontrar_max_passagens ⟨1, 0⟩ (-1)) ≤ -1 ∧
            ∀ m ∈ Finset.Icc (1 : ℕ) (1 + 49),
              calcular_prob_overbooking ⟨1, 0⟩ m ≤ -1 →
                m ≤ encontrar_max_passagens ⟨1, 0⟩ (-1)) ∧
        ((∀ n ∈ Finset.Icc (1 : ℕ) (1 + 49),
            calcular_prob_overbooking ⟨1, 0⟩ n ≤ -1) →
          encontrar_max_passagens ⟨1, 0⟩ (-1) = 1)) := by
  have hprob1 : calcular_prob_overbooking ⟨1, 0⟩ 1 = 0 :=
    prob_overbooking_at_capacity ⟨1, 0⟩
  have hres : encontrar_max_passagens ⟨1, 0⟩ (-1) = 0 := by
    show encontrar_aux ⟨1, 0⟩ (-1) (49 + 1) 1 = 0
    rw [encontrar_aux, if_pos (by rw [hprob1]; norm_num)]
  refine ⟨hres, ?_⟩
  rintro ⟨hA, -⟩
  have hex : ∃ n ∈ Finset.Icc (1 : ℕ) (1 + 49),
      (-1 : ℚ) < calcular_prob_overbooking ⟨1, 0⟩ n :=
    ⟨1, Finset.mem_Icc.mpr (by omega), by rw [hprob1]; norm_num⟩
  obtain ⟨hmem, -, -⟩ := hA hex
  rw [hres, Finset.mem_Icc] at hmem
  omega

/-- C1 amended: for capacity > 0, noShowRate in [0,1] and riskLimit
`≥ 0`, `encontrar_max_passagens` returns the largest `n` in
`[capacidade, capacidade+49]` with probability at most the limit when
some `n` in that range exceeds it, and returns `capacidade` when none
does (equivalently: it scans upward and returns `n - 1` at the first
exceedance). -/
theorem spec_c1_amended_encontrar_max_passagens (a : OverbookingAnalyzer)
    (limite_risco : ℚ) (hcap : 0 < a.capacidade)
    (h0 : 0 ≤ a.taxa_no_show) (h1 : a.taxa_no_show ≤ 1)
    (hlim : 0 ≤ limite_risco) :
    ((∃ n ∈ Finset.Icc a.capacidade (a.capacidade + 49),
        limite_risco < calcular_prob_overbooking a n) →
      encontrar_max_passagens a limite_risco ∈
          Finset.Icc a.capacidade (a.capacidade + 49) ∧
        calcular_prob_overbooking a
            (encontrar_max_passagens a limite_risco) ≤ limite_risco ∧
        ∀ m ∈ Finset.Icc a.capacidade (a.capacidade + 49),
          calcular_prob_overbooking a m ≤ limite_risco →
            m ≤ encontrar_max_passagens a limite_risco) ∧
    ((∀ n ∈ Finset.Icc a.capacidade (a.capacidade + 49),
        calcular_prob_overbooking a n ≤ limite_risco) →
      encontrar_max_passagens a limite_risco = a.capacidade) := by
  have hmono := calcular_prob_overbooking_mono a h0 h1
  constructor
  · rintro ⟨n, hn, hexc⟩
    rw [Finset.mem_Icc] at hn
    have hP : ∃ i, limite_risco < calcular_prob_overbooking a i :=
      ⟨n, hexc⟩
    have hn0 : limite_risco <
        calcular_prob_overbooking a (Nat.find hP) := Nat.find_spec hP
    have hminlt : ∀ i, i < Nat.find hP →
        ¬ limite_risco < calcular_prob_overbooking a i :=
      fun i hi => Nat.find_min hP hi
    have hn0le : Nat.find hP ≤ n := Nat.find_min' hP hexc
    have hcaplt : a.capacidade < Nat.find hP := by
      rcases lt_or_le a.capacidade (Nat.find hP) with h | h
      · exact h
      · exfalso
        have h2 : calcular_prob_overbooking a (Nat.find hP) ≤
            calcular_prob_overbooking a a.capacidade := hmono h
        rw [prob_overbooking_at_capacity a] at h2
        linarith
    have hres : encontrar_max_passagens a limite_risco =
        Nat.find hP - 1 := by
      unfold encontrar_max_passagens
      exact encontrar_aux_of_first a limite_risco 50 a.capacidade
        (Nat.find hP) (by omega) (by omega) hn0
        fun i _ h2 => hminlt i h2
    refine ⟨?_, ?_, ?_⟩
    · rw [hres, Finset.mem_Icc]
      omega
    · rw [hres]
      exact not_lt.mp (hminlt (Nat.find hP - 1) (by omega))
    · intro m hm hple
      rw [Finset.mem_Icc] at hm
      rw [hres]
      by_contra hgt
      push_neg at hgt
      have hn0m : Nat.find hP ≤ m := by omega
      have := hmono hn0m
      linarith
  · intro hall
    unfold encontrar_max_passagens
    apply encontrar_aux_of_none
    intro i h1i h2i
    exact not_lt.mpr (hall i (Finset.mem_Icc.mpr ⟨h1i, by omega⟩))

/-- Witness for the amended C1 at `capacidade = 1`,
`taxa_no_show = 0`, `riskLimit = 0`. -/
theorem spec_c1_witness :
    0 < (⟨1, 0⟩ : OverbookingAnalyzer).capacidade ∧
    0 ≤ (⟨1, 0⟩ : OverbookingAnalyzer).taxa_no_show ∧
    (⟨1, 0⟩ : OverbookingAnalyzer).taxa_no_show ≤ 1 ∧
    (0 : ℚ) ≤ 0 ∧
    (((∃ n ∈ Finset.Icc (1 : ℕ) (1 + 49),
          (0 : ℚ) < calcular_prob_overbooking ⟨1, 0⟩ n) →
        encontrar_max_passagens ⟨1, 0⟩ 0 ∈
            Finset.Icc (1 : ℕ) (1 + 49) ∧
          calcular_prob_overbooking ⟨1, 0⟩
              (encontrar_max_passagens ⟨1, 0⟩ 0) ≤ 0 ∧
          ∀ m ∈ Finset.Icc (1 : ℕ) (1 + 49),
            calcular_prob_overbooking ⟨1, 0⟩ m ≤ 0 →
              m ≤ encontrar_max_passagens ⟨1, 0⟩ 0) ∧
      ((∀ n ∈ Finset.Icc (1 : ℕ) (1 + 49),
          calcular_prob_overbooking ⟨1, 0⟩ n ≤ 0) →
        encontrar_max_passagens ⟨1, 0⟩ 0 = 1)) :=
  ⟨by norm_num, by norm_num, by norm_num, le_refl 0,
    spec_c1_amended_encontrar_max_passagens ⟨1, 0⟩ 0 (by norm_num)
      (by norm_num) (by norm_num) (le_refl 0)⟩

/-- C10: whenever the simulation returns a result, the three sequences
all have length `sampleCount`, every performance lies in `[0, 1]`, and
index-wise the revenue is `performance * expectedRevenue` and the ROI is
`(revenue - operatingCost) / investment * 100`. -/
theorem spec_c10_simulation_result_shape (gauss : ℕ → ℕ → ℚ)
    (a : ROIAnalyzer) (n : ℕ) (media std : ℚ) (s : RNGState)
    (res : SimulationResult)
    (h : (simulacao_monte_carlo gauss a n media std s).1 = some res) :
    res.performances.length = n ∧ res.receitas.length = n ∧
    res.rois.length = n ∧
    (∀ x ∈ res.performances, 0 ≤ x ∧ x ≤ 1) ∧
    ∀ i, i < n →
      res.receitas.getD i 0 =
          res.performances.getD i 0 * a.receita_esperada ∧
      res.rois.getD i 0 =
        (res.receitas.getD i 0 - a.custo_operacional) /
          a.investimento * 100 := by
  rw [simulacao_monte_carlo_eq] at h
  split_ifs at h with hz
  have hres := Option.some.inj h
  subst hres
  refine ⟨by simp, by simp, by simp, ?_, ?_⟩
  · intro x hx
    simp only [List.mem_map] at hx
    obtain ⟨y, -, hy⟩ := hx
    rw [← hy]
    exact np_clip_unit_bounds y
  · intro i hi
    have hlenP : i < (((List.range n).map fun i =>
        media + std * gauss 42 (0 + i)).map fun x =>
          np_clip x 0 1).length := by
      simp [hi]
    have hlenR : i < ((((List.range n).map fun i =>
        media + std * gauss 42 (0 + i)).map fun x =>
          np_clip x 0 1).map fun x => x * a.receita_esperada).length := by
      simp [hi]
    have hlenRoi : i < (((((List.range n).map fun i =>
        media + std * gauss 42 (0 + i)).map fun x =>
          np_clip x 0 1).map fun x => x * a.receita_esperada).map
            fun receita =>
              (receita - a.custo_operacional) /
                a.investimento * 100).length := by
      simp [hi]
    constructor
    · rw [List.getD_eq_getElem _ _ hlenR, List.getD_eq_getElem _ _ hlenP,
        List.getElem_map]
    · rw [List.getD_eq_getElem _ _ hlenRoi, List.getD_eq_getElem _ _ hlenR,
        List.getElem_map]

/-- Witness for C10 at one sample with mean 0 and standard deviation 0:
the single draw is `0`, clipped to `0`, revenue `0`, ROI `-300`. -/
theorem spec_c10_witness :
    ((simulacao_monte_carlo (fun _ _ => 0) ⟨1, 2, 3⟩ 1 0 0 ⟨7, 0⟩).1 =
        some ⟨[0], [-300], [0]⟩) ∧
    ((⟨[0], [-300], [0]⟩ : SimulationResult).performances.length = 1 ∧
      (⟨[0], [-300], [0]⟩ : SimulationResult).receitas.length = 1 ∧
      (⟨[0], [-300], [0]⟩ : SimulationResult).rois.length = 1 ∧
      (∀ x ∈ (⟨[0], [-300], [0]⟩ : SimulationResult).performances,
        0 ≤ x ∧ x ≤ 1) ∧
      ∀ i, i < 1 →
        (⟨[0], [-300], [0]⟩ : SimulationResult).receitas.getD i 0 =
            (⟨[0], [-300], [0]⟩ : SimulationResult).performances.getD i 0 *
              (⟨1, 2, 3⟩ : ROIAnalyzer).receita_esperada ∧
        (⟨[0], [-300], [0]⟩ : SimulationResult).rois.getD i 0 =
          ((⟨[0], [-300], [0]⟩ : SimulationResult).receitas.getD i 0 -
              (⟨1, 2, 3⟩ : ROIAnalyzer).custo_operacional) /
            (⟨1, 2, 3⟩ : ROIAnalyzer).investimento * 100) := by
  have h : (simulacao_monte_carlo (fun _ _ => 0) ⟨1, 2, 3⟩ 1 0 0
      ⟨7, 0⟩).1 = some ⟨[0], [-300], [0]⟩ := by
    rw [simulacao_monte_carlo_eq]
    norm_num [np_clip, List.range_succ]
  exact ⟨h, spec_c10_simulation_result_shape (fun _ _ => 0) ⟨1, 2, 3⟩ 1
    0 0 ⟨7, 0⟩ ⟨[0], [-300], [0]⟩ h⟩
